import Mathlib

/-!
Shallow embedding of the WindowPositioner core (window enumeration,
identity derivation, position store, positioning engine, foreground
engine, reconciliation pass) together with theorems checking the
specification claims against it.

OS interactions (Win32 calls) are modelled by explicit oracle fields:
each boolean oracle records the outcome the OS would report for one
call, and mutating calls are recorded in an explicit trace so that
claims about "zero OS mutation calls" or call ordering are statable.
-/

/-- Screen-coordinate rectangle, as in the Go RECT struct. -/
structure RECT where
  Left : Int
  Top : Int
  Right : Int
  Bottom : Int
deriving DecidableEq

/-- Saved geometry of a window, as in the Go WindowPosition struct. -/
structure WindowPosition where
  X : Int
  Y : Int
  Width : Int
  Height : Int
deriving DecidableEq

/-- Snapshot metadata of a window, as in the Go WindowInfo struct. -/
structure WindowInfo where
  Handle : Nat
  Title : String
  ClassName : String
  ProcessID : Nat
  Executable : String
  Style : Nat
  ExStyle : Nat
  ClientRect : RECT
  WindowRect : RECT
deriving DecidableEq

/-- Uppercase hexadecimal digit for a value below 16, as produced by the
Go format verb X. -/
def hexDigitChar (n : Nat) : Char :=
  if n < 10 then Char.ofNat (48 + n) else Char.ofNat (55 + n)

/-- Digit accumulation for the hexadecimal rendering; the fuel argument
only bounds the recursion depth and is in surplus at every call. -/
def toHexCore : Nat → Nat → List Char
  | 0, _ => []
  | fuel + 1, n =>
    if n < 16 then [hexDigitChar n]
    else toHexCore fuel (n / 16) ++ [hexDigitChar (n % 16)]

/-- Uppercase hexadecimal rendering of a natural number, most significant
digit first, as produced by the Go format verb X. -/
def toHexUpper (n : Nat) : String :=
  String.mk (toHexCore (n + 1) n)

/-- Left-pad a string with a fill character up to a target length, as the
zero flag with width does in a Go format verb such as 08X. -/
def leftPad (len : Nat) (c : Char) (s : String) : String :=
  String.mk (List.replicate (len - s.length) c) ++ s

/-- Rendering of the Go format fragment 0x%08X: literal 0x followed by
the value in uppercase hexadecimal, zero-padded to at least 8 digits. -/
def hex8 (n : Nat) : String :=
  "0x" ++ leftPad 8 '0' (toHexUpper n)

/-- Window identity key, from saveWindowPosition and
repositionSavedWindows: fmt.Sprintf with format
title, class name, executable, then the two style words as 0x%08X,
joined by vertical bars. -/
def windowIdentifier (title className executable : String)
    (style exstyle : Nat) : String :=
  title ++ "|" ++ className ++ "|" ++ executable ++ "|" ++
    hex8 style ++ "|" ++ hex8 exstyle

/-- Identity key of an enumerated window, as computed inline in
saveWindowPosition and repositionSavedWindows. -/
def identifierOf (w : WindowInfo) : String :=
  windowIdentifier w.Title w.ClassName w.Executable w.Style w.ExStyle

/-- The in-memory position map: Go map from identifier strings to
WindowPosition values, modelled as an association list with unique keys. -/
def PosMap : Type := List (String × WindowPosition)

instance : DecidableEq PosMap := by
  unfold PosMap
  infer_instance

/-- Go map assignment positions[identifier] = pos. -/
def mapSet (m : PosMap) (id : String) (p : WindowPosition) : PosMap :=
  (id, p) :: List.filter (fun kv => kv.1 ≠ id) m

/-- Go built-in delete(positions, identifier). -/
def mapDelete (m : PosMap) (id : String) : PosMap :=
  List.filter (fun kv => kv.1 ≠ id) m

/-- Content of one file on disk, as observed by os.ReadFile followed by
json.Unmarshal: the file may be absent, unreadable (a read error other
than not-exist), present but not valid JSON, or a valid serialized map. -/
inductive FileData where
  | missing : FileData
  | unreadable : FileData
  | corrupt : FileData
  | written : PosMap → FileData
deriving DecidableEq

/-- State of the storage directory: the store file positions.json and
its sibling temp file positions.json.tmp. -/
structure StoreState where
  main : FileData
  tmp : FileData
deriving DecidableEq

/-- loadAll: read the store file; a missing file yields an empty map,
any other read or parse failure is an error, otherwise the parsed map. -/
def loadAll (fs : StoreState) : Except String PosMap :=
  match fs.main with
  | FileData.missing => Except.ok []
  | FileData.unreadable => Except.error "read failed"
  | FileData.corrupt => Except.error "invalid character in JSON"
  | FileData.written m => Except.ok m

/-- First half of saveAll: os.WriteFile of the serialized map to the
temp file positions.json.tmp. -/
def writeTmp (fs : StoreState) (m : PosMap) : StoreState :=
  { fs with tmp := FileData.written m }

/-- Second half of saveAll: os.Rename of the temp file over the store
file, atomically replacing it. -/
def renameTmpOverMain (fs : StoreState) : StoreState :=
  { main := fs.tmp, tmp := FileData.missing }

/-- saveAll: serialize the whole map, write it to the temp file, then
atomically rename the temp file over the store file. -/
def saveAll (fs : StoreState) (m : PosMap) : StoreState :=
  renameTmpOverMain (writeTmp fs m)

/-- An interruption that truncates only the temp file (leaving it as
invalid JSON) while the store file is untouched. -/
def truncateTmp (fs : StoreState) : StoreState :=
  { fs with tmp := FileData.corrupt }

/-- SavePosition: load the whole map, assign the entry, save the whole
map; a load failure is surfaced as an error. -/
def SavePosition (fs : StoreState) (id : String) (p : WindowPosition) :
    Except String StoreState :=
  match loadAll fs with
  | Except.error e => Except.error ("failed to load positions: " ++ e)
  | Except.ok m => Except.ok (saveAll fs (mapSet m id p))

/-- LoadPosition: load the whole map and look the identifier up; a load
failure or a missing identifier is surfaced as an error. -/
def LoadPosition (fs : StoreState) (id : String) :
    Except String WindowPosition :=
  match loadAll fs with
  | Except.error e => Except.error ("failed to load positions: " ++ e)
  | Except.ok m =>
    match m.lookup id with
    | none => Except.error ("position not found for identifier " ++ id)
    | some p => Except.ok p

/-- DeletePosition: load the whole map, delete the entry, save the whole
map; a load failure is surfaced as an error. -/
def DeletePosition (fs : StoreState) (id : String) :
    Except String StoreState :=
  match loadAll fs with
  | Except.error e => Except.error ("failed to load positions: " ++ e)
  | Except.ok m => Except.ok (saveAll fs (mapDelete m id))

/-- GetAllPositions: load the whole map, degrading any load failure to
an empty map instead of reporting it. -/
def GetAllPositions (fs : StoreState) : PosMap :=
  match loadAll fs with
  | Except.error _ => []
  | Except.ok m => m

/-- Oracle environment for one MoveWindowAccurate invocation: the
isValidWindow outcome, the getWindowPosition outcome (none models a
failed GetWindowRect), and the outcome each fallback strategy would
report if invoked.  Strategy indices follow the listed order in the
source: 0 trySetWindowPos, 1 tryAttachThreadInputForSetPos,
2 tryMinimizeRestoreForSetPos, 3 trySetWindowPlacementForSetPos,
4 tryAsyncWindowPos, 5 tryPostMessageApproach, 6 trySendMessageApproach,
7 tryIndirectApproach, 8 tryCombinedApproach, 9 tryAccessibilityApproach,
10 tryWindowsAutomationApproach. -/
structure MoveEnv where
  validWindow : Bool
  currentPos : Option WindowPosition
  strat : Nat → Bool

/-- MoveWindowAccurate: validate the handle, re-read the current
geometry, short-circuit when it already equals the target, then
try the eleven fallback strategies strictly in order, returning success
at the first strategy that reports success and one terminal error after
all have failed.  The second component records which strategies were
invoked, in order; strategy invocations are the only OS mutation calls
the function makes. -/
def MoveWindowAccurate (env : MoveEnv) (x y width height : Int) :
    Except String Unit × List Nat :=
  if env.validWindow = false then
    (Except.error "invalid or destroyed window handle", [])
  else
    match env.currentPos with
    | none => (Except.error "failed to get current window position", [])
    | some pos =>
      if pos.X = x ∧ pos.Y = y ∧ pos.Width = width ∧ pos.Height = height then
        (Except.ok (), [])
      else if env.strat 0 then (Except.ok (), [0])
      else if env.strat 1 then (Except.ok (), [0, 1])
      else if env.strat 2 then (Except.ok (), [0, 1, 2])
      else if env.strat 3 then (Except.ok (), [0, 1, 2, 3])
      else if env.strat 4 then (Except.ok (), [0, 1, 2, 3, 4])
      else if env.strat 5 then (Except.ok (), [0, 1, 2, 3, 4, 5])
      else if env.strat 6 then (Except.ok (), [0, 1, 2, 3, 4, 5, 6])
      else if env.strat 7 then (Except.ok (), [0, 1, 2, 3, 4, 5, 6, 7])
      else if env.strat 8 then (Except.ok (), [0, 1, 2, 3, 4, 5, 6, 7, 8])
      else if env.strat 9 then
        (Except.ok (), [0, 1, 2, 3, 4, 5, 6, 7, 8, 9])
      else if env.strat 10 then
        (Except.ok (), [0, 1, 2, 3, 4, 5, 6, 7, 8, 9, 10])
      else
        (Except.error "failed to move window after multiple attempts",
          [0, 1, 2, 3, 4, 5, 6, 7, 8, 9, 10])

/-- One top-level window as the OS presents it to the enumeration
callback: the IsWindowVisible and isValidWindow outcomes plus the
metadata getWindowInfo would collect for it. -/
structure OsWindow where
  visible : Bool
  valid : Bool
  info : WindowInfo
deriving DecidableEq

/-- Decision of enumWindowsCallbackFunc for one window: skip null or
invalid handles, then require visibility and a window rectangle strictly
more than 8 pixels wide and strictly more than 8 pixels high. -/
def enumCallbackKeeps (w : OsWindow) : Bool :=
  if w.info.Handle = 0 ∨ w.valid = false then false
  else if w.visible then
    decide (w.info.WindowRect.Right - w.info.WindowRect.Left > 8) &&
      decide (w.info.WindowRect.Bottom - w.info.WindowRect.Top > 8)
  else false

/-- EnumerateWindows: drive the callback over every top-level window the
OS reports; if the EnumWindows primitive itself fails, report an error,
otherwise return the collected snapshots in enumeration order. -/
def EnumerateWindows (ws : List OsWindow) (enumOk : Bool) :
    Except String (List WindowInfo) :=
  if enumOk = false then Except.error "EnumWindows failed"
  else Except.ok ((ws.filter enumCallbackKeeps).map OsWindow.info)

/-- Oracle environment for one repositionSavedWindows pass: the store
state, the EnumWindows outcome, the enumerated windows, and the outcome
MoveWindowAccurate would report for each window and target. -/
structure ReconEnv where
  fs : StoreState
  enumOk : Bool
  windows : List WindowInfo
  move : WindowInfo → WindowPosition → Except String Unit

/-- Loop body of repositionSavedWindows over the enumerated windows: for
each window whose identity key has a saved position, invoke
MoveWindowAccurate, record the attempt with its outcome, and continue
with the next window whatever that outcome was. -/
def attemptSaved (positions : PosMap)
    (move : WindowInfo → WindowPosition → Except String Unit) :
    List WindowInfo → List (String × Except String Unit)
  | [] => []
  | w :: ws =>
    match positions.lookup (identifierOf w) with
    | some pos => (identifierOf w, move w pos) :: attemptSaved positions move ws
    | none => attemptSaved positions move ws

/-- repositionSavedWindows: list all saved positions (degraded to empty
on a load failure), enumerate the current windows, and for each window
whose identity key has a saved position invoke MoveWindowAccurate,
catching and logging a failure locally and continuing with the next
window.  The result records every attempted (identifier, outcome) pair
in enumeration order; no per-window error escapes the pass. -/
def repositionSavedWindows (env : ReconEnv) :
    List (String × Except String Unit) :=
  if env.enumOk = false then []
  else attemptSaved (GetAllPositions env.fs) env.move env.windows

/-- isRectOnScreen: a rectangle counts as on screen unless it lies
completely to the left, right, above, or below the virtual screen. -/
def isRectOnScreen (rect virtualScreen : RECT) : Bool :=
  if rect.Right < virtualScreen.Left ∨ rect.Left > virtualScreen.Right ∨
      rect.Bottom < virtualScreen.Top ∨ rect.Top > virtualScreen.Bottom then
    false
  else
    true

/-- A point of the plane lying within a closed screen rectangle. -/
def inRect (px py : Int) (r : RECT) : Prop :=
  r.Left ≤ px ∧ px ≤ r.Right ∧ r.Top ≤ py ∧ py ≤ r.Bottom

/-- A rectangle lying entirely outside another: no point belongs to
both. -/
def rectEntirelyOutside (r s : RECT) : Prop :=
  ∀ px py, inRect px py r → ¬ inRect px py s

/-- One OS mutation call recorded while focusWindow runs: either the
SetWindowPos that recenters an off-screen window on the primary display,
or the invocation of one foreground strategy.  Foreground strategy
indices follow the listed order in the source: 0 trySetForegroundWindow,
1 tryAttachThreadInput, 2 tryMinimizeRestore,
3 tryAllowSetForegroundWindow. -/
inductive FocusEvent where
  | recenter : Int → Int → Int → Int → FocusEvent
  | fgAttempt : Nat → FocusEvent
deriving DecidableEq

/-- Oracle environment for one focusWindow invocation: the isValidWindow
outcome, the GetWindowRect outcome, the virtual-screen and
primary-display rectangles, and the outcome each foreground strategy
would report if invoked. -/
structure FocusEnv where
  validWindow : Bool
  windowRect : Option RECT
  virtualScreen : RECT
  primaryDisplay : RECT
  fg : Nat → Bool

/-- focusWindow: validate the handle, read the current rectangle, and if
it is outside the whole virtual screen recenter the window on the
primary display preserving its size (the SetWindowPos outcome is only
logged); then try the four foreground strategies strictly in order,
returning success at the first that reports success and one terminal
error after all have failed.  The second component records the OS
mutation calls in order. -/
def focusWindow (env : FocusEnv) : Except String Unit × List FocusEvent :=
  if env.validWindow = false then
    (Except.error "invalid or destroyed window handle", [])
  else
    match env.windowRect with
    | none => (Except.error "GetWindowRect failed", [])
    | some rect =>
      let width := rect.Right - rect.Left
      let height := rect.Bottom - rect.Top
      let pre : List FocusEvent :=
        if isRectOnScreen rect env.virtualScreen = false then
          [FocusEvent.recenter
            (env.primaryDisplay.Left +
              Int.tdiv (env.primaryDisplay.Right - env.primaryDisplay.Left -
                width) 2)
            (env.primaryDisplay.Top +
              Int.tdiv (env.primaryDisplay.Bottom - env.primaryDisplay.Top -
                height) 2)
            width height]
        else []
      if env.fg 0 then (Except.ok (), pre ++ [FocusEvent.fgAttempt 0])
      else if env.fg 1 then
        (Except.ok (), pre ++ [FocusEvent.fgAttempt 0, FocusEvent.fgAttempt 1])
      else if env.fg 2 then
        (Except.ok (), pre ++
          [FocusEvent.fgAttempt 0, FocusEvent.fgAttempt 1,
            FocusEvent.fgAttempt 2])
      else if env.fg 3 then
        (Except.ok (), pre ++
          [FocusEvent.fgAttempt 0, FocusEvent.fgAttempt 1,
            FocusEvent.fgAttempt 2, FocusEvent.fgAttempt 3])
      else
        (Except.error "failed to bring window to front after multiple attempts",
          pre ++
            [FocusEvent.fgAttempt 0, FocusEvent.fgAttempt 1,
              FocusEvent.fgAttempt 2, FocusEvent.fgAttempt 3])

/-- C3: for every identifier and every position whose x and y are any
integers (including negative ones) and whose width and height are
positive, SavePosition followed by LoadPosition of the same identifier
on the resulting store returns exactly the saved position.  The
hypothesis loadAll fs = ok m says the save itself was able to read the
store (otherwise SavePosition surfaces the load error instead of
writing). -/
theorem savePosition_loadPosition_roundtrip (fs : StoreState) (id : String)
    (p : WindowPosition) (m : PosMap) (hload : loadAll fs = Except.ok m)
    (hw : 0 < p.Width) (hh : 0 < p.Height) :
    ∃ fs2, SavePosition fs id p = Except.ok fs2 ∧
      LoadPosition fs2 id = Except.ok p := by
  refine ⟨saveAll fs (mapSet m id p), ?_, ?_⟩
  · simp [SavePosition, hload]
  · simp [LoadPosition, saveAll, renameTmpOverMain, writeTmp, loadAll, mapSet,
      List.lookup]

/-- Witness for C3 at a concrete input with negative x and y: saving
position (-100, -200, 800, 600) into an empty store and loading it back
returns it exactly. -/
theorem savePosition_loadPosition_roundtrip_witness :
    ∃ fs2, SavePosition ⟨FileData.missing, FileData.missing⟩ "w"
        ⟨-100, -200, 800, 600⟩ = Except.ok fs2 ∧
      LoadPosition fs2 "w" = Except.ok ⟨-100, -200, 800, 600⟩ :=
  savePosition_loadPosition_roundtrip ⟨FileData.missing, FileData.missing⟩ "w"
    ⟨-100, -200, 800, 600⟩ [] rfl (by decide) (by decide)

/-- C4: saveAll writes the whole serialized document to the temp file
and then atomically renames it over the store path, so the store file
ends holding exactly the new map and never a partial write; an
interruption before the rename — whether the temp file holds the full
new document or was truncated to garbage — leaves the store file
untouched, and the next load returns the previously persisted state
unchanged. -/
theorem saveAll_atomic_no_partial_file (fs : StoreState) (m : PosMap) :
    (saveAll fs m).main = FileData.written m ∧
    loadAll (writeTmp fs m) = loadAll fs ∧
    loadAll (truncateTmp (writeTmp fs m)) = loadAll fs :=
  ⟨rfl, rfl, rfl⟩

/-- C9: starting from an empty store, saving the identifier
A|B|C|0x00000000|0x00000000 (which is exactly the derived key for
title A, class B, executable C, zero style words) with position
(100, 100, 800, 600) makes GetAllPositions return exactly that single
pair, and deleting the same identifier afterwards makes GetAllPositions
return the empty map. -/
theorem store_save_list_delete_scenario :
    windowIdentifier "A" "B" "C" 0 0 = "A|B|C|0x00000000|0x00000000" ∧
    GetAllPositions ⟨FileData.missing, FileData.missing⟩ = [] ∧
    SavePosition ⟨FileData.missing, FileData.missing⟩
        "A|B|C|0x00000000|0x00000000" ⟨100, 100, 800, 600⟩ =
      Except.ok
        ⟨FileData.written
          [("A|B|C|0x00000000|0x00000000", ⟨100, 100, 800, 600⟩)],
          FileData.missing⟩ ∧
    GetAllPositions
        ⟨FileData.written
          [("A|B|C|0x00000000|0x00000000", ⟨100, 100, 800, 600⟩)],
          FileData.missing⟩ =
      [("A|B|C|0x00000000|0x00000000", ⟨100, 100, 800, 600⟩)] ∧
    DeletePosition
        ⟨FileData.written
          [("A|B|C|0x00000000|0x00000000", ⟨100, 100, 800, 600⟩)],
          FileData.missing⟩
        "A|B|C|0x00000000|0x00000000" =
      Except.ok ⟨FileData.written [], FileData.missing⟩ ∧
    GetAllPositions ⟨FileData.written [], FileData.missing⟩ = [] :=
  ⟨by decide, rfl, rfl, rfl, rfl, rfl⟩

/-- C10: GetAllPositions never reports an error: whenever loadAll fails
(unreadable file or corrupt JSON) it returns the empty map, and whenever
loadAll succeeds it returns the loaded map (a missing file having been
degraded by loadAll itself to the empty map), so callers observe no
saved positions rather than a surfaced persistence error. -/
theorem getAllPositions_never_errors (fs : StoreState) :
    ((∃ e, loadAll fs = Except.error e) → GetAllPositions fs = []) ∧
    (∀ m, loadAll fs = Except.ok m → GetAllPositions fs = m) := by
  constructor
  · rintro ⟨e, he⟩
    simp [GetAllPositions, he]
  · intro m hm
    simp [GetAllPositions, hm]

/-- Witness for C10 at a concrete input: with a corrupt store file,
loadAll fails yet GetAllPositions returns the empty map. -/
theorem getAllPositions_never_errors_witness :
    GetAllPositions ⟨FileData.corrupt, FileData.missing⟩ = [] :=
  (getAllPositions_never_errors ⟨FileData.corrupt, FileData.missing⟩).1
    ⟨"invalid character in JSON", rfl⟩

/-- Digit-count bound for the hexadecimal rendering: a value below
16 to the power k + 1 renders in at most k + 1 digits, whatever the
fuel. -/
theorem toHexCore_length_le (fuel : Nat) :
    ∀ n k : Nat, n < 16 ^ (k + 1) → (toHexCore fuel n).length ≤ k + 1 := by
  induction fuel with
  | zero =>
    intro n k _
    simp [toHexCore]
  | succ fuel ih =>
    intro n k h
    by_cases h16 : n < 16
    · simp [toHexCore, h16]
    · have hk : 1 ≤ k := by
        rcases Nat.eq_zero_or_pos k with hk0 | hk0
        · subst hk0
          simp at h
          omega
        · exact hk0
      have hdiv : n / 16 < 16 ^ ((k - 1) + 1) := by
        have h1 : n / 16 < 16 ^ k := by
          rw [Nat.div_lt_iff_lt_mul (by norm_num : (0 : Nat) < 16)]
          calc n < 16 ^ (k + 1) := h
            _ = 16 ^ k * 16 := pow_succ 16 k
        have h2 : (k - 1) + 1 = k := by omega
        rw [h2]
        exact h1
      have hlen := ih (n / 16) (k - 1) hdiv
      simp only [toHexCore, if_neg h16, List.length_append, List.length_cons,
        List.length_nil]
      omega

/-- Fixed-width padding: left-padding a string no longer than the target
length yields exactly the target length. -/
theorem leftPad_length (len : Nat) (c : Char) (s : String)
    (h : s.length ≤ len) : (leftPad len c s).length = len := by
  simp [leftPad, String.length_append]
  omega

/-- Width of the rendered style field: for a 32-bit value the 0x%08X
rendering is exactly the two-character 0x prefix plus eight hexadecimal
digits. -/
theorem hex8_length (n : Nat) (h : n < 2 ^ 32) : (hex8 n).length = 10 := by
  have hb : n < 16 ^ (7 + 1) := by
    calc n < 2 ^ 32 := h
      _ = 16 ^ (7 + 1) := by norm_num
  have hlen : (toHexUpper n).length ≤ 8 := by
    have := toHexCore_length_le (n + 1) n 7 hb
    simpa [toHexUpper, String.length] using this
  simp [hex8, String.length_append, leftPad_length 8 '0' _ hlen]
  rfl

/-- C5: the window-identity key derivation is a pure deterministic
function of (title, class name, executable, style, exstyle): identical
inputs yield a byte-identical key; the key concatenates the five fields
in the fixed order title, class, executable, style, exstyle separated by
vertical bars; and for 32-bit style words the two numeric fields are
rendered at the fixed width of eight hexadecimal digits behind a 0x
prefix. -/
theorem windowIdentifier_deterministic_fixed_format
    (t1 c1 e1 t2 c2 e2 : String) (s1 x1 s2 x2 : Nat)
    (ht : t1 = t2) (hc : c1 = c2) (he : e1 = e2) (hs : s1 = s2)
    (hx : x1 = x2) (hsb : s1 < 2 ^ 32) (hxb : x1 < 2 ^ 32) :
    windowIdentifier t1 c1 e1 s1 x1 = windowIdentifier t2 c2 e2 s2 x2 ∧
    windowIdentifier t1 c1 e1 s1 x1 =
      t1 ++ "|" ++ c1 ++ "|" ++ e1 ++ "|" ++ hex8 s1 ++ "|" ++ hex8 x1 ∧
    (hex8 s1).length = 10 ∧ (hex8 x1).length = 10 := by
  subst ht hc he hs hx
  exact ⟨rfl, rfl, hex8_length s1 hsb, hex8_length x1 hxb⟩

/-- Witness for C5 at a concrete input: the key for title Editor, class
Frame, executable C:/ed.exe and style words 0x96000000 and 0x200 is the
expected fixed-format string, whose numeric fields are ten characters
wide. -/
theorem windowIdentifier_deterministic_fixed_format_witness :
    windowIdentifier "Editor" "Frame" "C:/ed.exe" 2516582400 512 =
      windowIdentifier "Editor" "Frame" "C:/ed.exe" 2516582400 512 ∧
    windowIdentifier "Editor" "Frame" "C:/ed.exe" 2516582400 512 =
      "Editor" ++ "|" ++ "Frame" ++ "|" ++ "C:/ed.exe" ++ "|" ++
        hex8 2516582400 ++ "|" ++ hex8 512 ∧
    (hex8 2516582400).length = 10 ∧ (hex8 512).length = 10 :=
  windowIdentifier_deterministic_fixed_format
    "Editor" "Frame" "C:/ed.exe" "Editor" "Frame" "C:/ed.exe"
    2516582400 512 2516582400 512 rfl rfl rfl rfl rfl
    (by norm_num) (by norm_num)

/-- C1: on a valid window whose current geometry differs from the
target, MoveWindowAccurate attempts its fallback strategies strictly in
their fixed listed order: if the first M strategies fail and strategy M
succeeds, it returns success having invoked exactly strategies 0
through M and none later; if all eleven strategies fail it returns the
single terminal error after invoking all of them. -/
theorem moveWindowAccurate_strategy_escalation (env : MoveEnv)
    (x y w h : Int) (pos : WindowPosition) (hv : env.validWindow = true)
    (hp : env.currentPos = some pos)
    (hne : ¬(pos.X = x ∧ pos.Y = y ∧ pos.Width = w ∧ pos.Height = h)) :
    (∀ M, M < 11 → (∀ i, i < M → env.strat i = false) →
      env.strat M = true →
      MoveWindowAccurate env x y w h = (Except.ok (), List.range (M + 1))) ∧
    ((∀ i, i < 11 → env.strat i = false) →
      MoveWindowAccurate env x y w h =
        (Except.error "failed to move window after multiple attempts",
          List.range 11)) := by
  have h1 : ¬(true = false) := by decide
  constructor
  · intro M hM hfail hsucc
    simp only [MoveWindowAccurate, hv, hp, if_neg h1, if_neg hne]
    interval_cases M <;> simp [hfail, hsucc] <;> rfl
  · intro hall
    simp only [MoveWindowAccurate, hv, hp, if_neg h1, if_neg hne]
    simp [hall]
    rfl

/-- Witness for C1 at a concrete input: with strategies 0 and 1 failing
and strategy 2 succeeding on a valid window at (0, 0, 10, 10) with
target (1, 2, 3, 4), the engine reports success having invoked exactly
strategies 0, 1 and 2. -/
theorem moveWindowAccurate_strategy_escalation_witness :
    MoveWindowAccurate
      ⟨true, some ⟨0, 0, 10, 10⟩, fun i => decide (i = 2)⟩ 1 2 3 4 =
      (Except.ok (), List.range 3) :=
  (moveWindowAccurate_strategy_escalation
      ⟨true, some ⟨0, 0, 10, 10⟩, fun i => decide (i = 2)⟩ 1 2 3 4
      ⟨0, 0, 10, 10⟩ rfl rfl (by decide)).1 2 (by decide)
    (by intro i hi; interval_cases i <;> decide) (by decide)

/-- C2: on a valid window whose current geometry already equals the
target, MoveWindowAccurate returns success with an empty mutation
trace: it only re-reads the current geometry and short-circuits before
invoking any strategy, so no SetWindowPos, ShowWindow or message call
is issued. -/
theorem moveWindowAccurate_idempotent (env : MoveEnv) (x y w h : Int)
    (pos : WindowPosition) (hv : env.validWindow = true)
    (hp : env.currentPos = some pos) (hx : pos.X = x) (hy : pos.Y = y)
    (hw : pos.Width = w) (hh : pos.Height = h) :
    MoveWindowAccurate env x y w h = (Except.ok (), []) := by
  simp [MoveWindowAccurate, hv, hp, hx, hy, hw, hh]

/-- Witness for C2 at a concrete input: a window already at
(5, 6, 300, 200) moved to (5, 6, 300, 200) yields success and an empty
mutation trace even when every strategy would fail if invoked. -/
theorem moveWindowAccurate_idempotent_witness :
    MoveWindowAccurate ⟨true, some ⟨5, 6, 300, 200⟩, fun _ => false⟩
      5 6 300 200 = (Except.ok (), []) :=
  moveWindowAccurate_idempotent
    ⟨true, some ⟨5, 6, 300, 200⟩, fun _ => false⟩ 5 6 300 200
    ⟨5, 6, 300, 200⟩ rfl rfl rfl rfl rfl rfl

/-- Characterization of the enumeration callback decision: a window is
kept exactly when its handle is nonzero, it is valid and visible, and
its window rectangle is strictly more than 8 pixels wide and strictly
more than 8 pixels high.  The window title is not consulted. -/
theorem enumCallbackKeeps_iff (w : OsWindow) :
    enumCallbackKeeps w = true ↔
      w.info.Handle ≠ 0 ∧ w.valid = true ∧ w.visible = true ∧
      8 < w.info.WindowRect.Right - w.info.WindowRect.Left ∧
      8 < w.info.WindowRect.Bottom - w.info.WindowRect.Top := by
  rcases w with ⟨vis, val, info⟩
  by_cases h0 : info.Handle = 0 <;> cases val <;> cases vis <;>
    simp [enumCallbackKeeps, h0]

/-- C6 counterexample: a visible valid window with an EMPTY title and a
100 by 100 rectangle is returned by EnumerateWindows, although the claim
says a window with an empty title is excluded from the snapshot list. -/
theorem enumerateWindows_keeps_empty_title :
    EnumerateWindows
      [⟨true, true,
        ⟨1, "", "Progman", 4, "C:/Windows/explorer.exe", 0, 0,
          ⟨0, 0, 0, 0⟩, ⟨0, 0, 100, 100⟩⟩⟩] true =
      Except.ok
        [⟨1, "", "Progman", 4, "C:/Windows/explorer.exe", 0, 0,
          ⟨0, 0, 0, 0⟩, ⟨0, 0, 100, 100⟩⟩] ∧
    (⟨1, "", "Progman", 4, "C:/Windows/explorer.exe", 0, 0,
      ⟨0, 0, 0, 0⟩, ⟨0, 0, 100, 100⟩⟩ : WindowInfo).Title = "" :=
  ⟨rfl, rfl⟩

/-- C6 amended: EnumerateWindows returns exactly those top-level windows
that have a nonzero valid handle, are visible, and whose window
rectangle is strictly more than 8 pixels wide and strictly more than 8
pixels high; the non-empty-title condition is not part of the
enumeration filter (it is applied later by the presentation layer), so
an empty-title window meeting the geometric conditions is included. -/
theorem enumerateWindows_membership (ws : List OsWindow) (enumOk : Bool)
    (l : List WindowInfo) (h : EnumerateWindows ws enumOk = Except.ok l)
    (i : WindowInfo) :
    i ∈ l ↔ ∃ w ∈ ws, w.info = i ∧ w.info.Handle ≠ 0 ∧ w.valid = true ∧
      w.visible = true ∧
      8 < w.info.WindowRect.Right - w.info.WindowRect.Left ∧
      8 < w.info.WindowRect.Bottom - w.info.WindowRect.Top := by
  cases enumOk with
  | false => simp [EnumerateWindows] at h
  | true =>
    have h2 : l = (ws.filter enumCallbackKeeps).map OsWindow.info := by
      have h3 : ¬(true = false) := by decide
      rw [EnumerateWindows, if_neg h3] at h
      exact (Except.ok.inj h).symm
    subst h2
    simp only [List.mem_map, List.mem_filter]
    constructor
    · rintro ⟨w, ⟨hmem, hkeep⟩, hinfo⟩
      obtain ⟨k1, k2, k3, k4, k5⟩ := (enumCallbackKeeps_iff w).mp hkeep
      exact ⟨w, hmem, hinfo, k1, k2, k3, k4, k5⟩
    · rintro ⟨w, hmem, hinfo, k1, k2, k3, k4, k5⟩
      exact ⟨w, ⟨hmem, (enumCallbackKeeps_iff w).mpr ⟨k1, k2, k3, k4, k5⟩⟩,
        hinfo⟩

/-- Witness for the amended C6 at a concrete input: the membership
characterization applied to a two-window list keeps the large visible
window and drops the 5 by 5 one. -/
theorem enumerateWindows_membership_witness :
    (⟨7, "Editor", "Frame", 4, "C:/ed.exe", 0, 0, ⟨0, 0, 0, 0⟩,
        ⟨0, 0, 640, 480⟩⟩ : WindowInfo) ∈
      [(⟨7, "Editor", "Frame", 4, "C:/ed.exe", 0, 0, ⟨0, 0, 0, 0⟩,
        ⟨0, 0, 640, 480⟩⟩ : WindowInfo)] :=
  (enumerateWindows_membership
    [⟨true, true,
      ⟨7, "Editor", "Frame", 4, "C:/ed.exe", 0, 0, ⟨0, 0, 0, 0⟩,
        ⟨0, 0, 640, 480⟩⟩⟩,
      ⟨true, true,
        ⟨8, "Tiny", "Frame", 4, "C:/ed.exe", 0, 0, ⟨0, 0, 0, 0⟩,
          ⟨0, 0, 5, 5⟩⟩⟩] true
    [⟨7, "Editor", "Frame", 4, "C:/ed.exe", 0, 0, ⟨0, 0, 0, 0⟩,
      ⟨0, 0, 640, 480⟩⟩] rfl
    ⟨7, "Editor", "Frame", 4, "C:/ed.exe", 0, 0, ⟨0, 0, 0, 0⟩,
      ⟨0, 0, 640, 480⟩⟩).mpr
    ⟨⟨true, true,
      ⟨7, "Editor", "Frame", 4, "C:/ed.exe", 0, 0, ⟨0, 0, 0, 0⟩,
        ⟨0, 0, 640, 480⟩⟩⟩,
      by decide, rfl, by decide, rfl, rfl, by decide, by decide⟩

/-- The identifiers attempted by the reconciliation loop body are
exactly the identifiers of the enumerated windows that have a saved
position, independently of the outcomes the move oracle reports. -/
theorem attemptSaved_map_fst (positions : PosMap)
    (move : WindowInfo → WindowPosition → Except String Unit) :
    ∀ ws : List WindowInfo,
      (attemptSaved positions move ws).map Prod.fst =
        (ws.filter
          (fun w => (positions.lookup (identifierOf w)).isSome)).map
          identifierOf := by
  intro ws
  induction ws with
  | nil => rfl
  | cons w ws ih =>
    rcases hw : positions.lookup (identifierOf w) with _ | pos <;>
      simp [attemptSaved, hw, List.filter, ih]

/-- Every enumerated window with a saved position is attempted by the
reconciliation loop body, whatever the move oracle reports for it or
for any other window. -/
theorem attemptSaved_mem (positions : PosMap)
    (move : WindowInfo → WindowPosition → Except String Unit) :
    ∀ ws : List WindowInfo, ∀ w ∈ ws, ∀ pos,
      positions.lookup (identifierOf w) = some pos →
      (identifierOf w, move w pos) ∈ attemptSaved positions move ws := by
  intro ws
  induction ws with
  | nil =>
    intro w hw
    simp at hw
  | cons v ws ih =>
    intro w hw pos hpos
    rcases List.mem_cons.mp hw with hcase | hcase
    · subst hcase
      simp [attemptSaved, hpos]
    · rcases hv : positions.lookup (identifierOf v) with _ | vpos <;>
        simp [attemptSaved, hv, ih w hcase pos hpos]

/-- C7: within one reconciliation pass over the enumerated windows, the
set of attempted windows is exactly those whose identity key has a
saved position, and it does not depend on any per-window move outcome:
in particular every window with a saved position is attempted — with its
own outcome recorded — even when the move of any other window fails,
and the pass itself never propagates an error (its result type carries
none). -/
theorem repositionSavedWindows_partial_failure_isolation (env : ReconEnv)
    (henum : env.enumOk = true) :
    ((repositionSavedWindows env).map Prod.fst =
      (env.windows.filter
        (fun w =>
          ((GetAllPositions env.fs).lookup (identifierOf w)).isSome)).map
        identifierOf) ∧
    (∀ w ∈ env.windows, ∀ pos,
      (GetAllPositions env.fs).lookup (identifierOf w) = some pos →
      (identifierOf w, env.move w pos) ∈ repositionSavedWindows env) := by
  have hne : ¬(env.enumOk = false) := by simp [henum]
  constructor
  · rw [repositionSavedWindows, if_neg hne]
    exact attemptSaved_map_fst (GetAllPositions env.fs) env.move env.windows
  · intro w hw pos hpos
    rw [repositionSavedWindows, if_neg hne]
    exact attemptSaved_mem (GetAllPositions env.fs) env.move env.windows
      w hw pos hpos

/-- Window A of the concrete reconciliation scenario. -/
def reconWinA : WindowInfo :=
  ⟨1, "A", "FA", 1, "EA", 0, 0, ⟨0, 0, 0, 0⟩, ⟨0, 0, 10, 10⟩⟩

/-- Window B of the concrete reconciliation scenario; its move fails. -/
def reconWinB : WindowInfo :=
  ⟨2, "B", "FB", 2, "EB", 0, 0, ⟨0, 0, 0, 0⟩, ⟨0, 0, 10, 10⟩⟩

/-- Window C of the concrete reconciliation scenario. -/
def reconWinC : WindowInfo :=
  ⟨3, "C", "FC", 3, "EC", 0, 0, ⟨0, 0, 0, 0⟩, ⟨0, 0, 10, 10⟩⟩

/-- Concrete reconciliation environment: all three windows have saved
positions and the move oracle reports a transient failure for window B
only. -/
def reconEnvW : ReconEnv :=
  ⟨⟨FileData.written
      [(identifierOf reconWinA, ⟨5, 5, 10, 10⟩),
        (identifierOf reconWinB, ⟨6, 6, 10, 10⟩),
        (identifierOf reconWinC, ⟨7, 7, 10, 10⟩)],
      FileData.missing⟩,
    true,
    [reconWinA, reconWinB, reconWinC],
    fun w _ =>
      if w.Title = "B" then Except.error "access denied" else Except.ok ()⟩

/-- Witness for C7 at a concrete input: in a pass over three windows
whose middle window fails to move, the two other windows are still
attempted (and the failure itself is recorded, not propagated). -/
theorem repositionSavedWindows_partial_failure_isolation_witness :
    (identifierOf reconWinA, Except.ok ()) ∈
      repositionSavedWindows reconEnvW ∧
    (identifierOf reconWinB, (Except.error "access denied" :
      Except String Unit)) ∈ repositionSavedWindows reconEnvW ∧
    (identifierOf reconWinC, Except.ok ()) ∈
      repositionSavedWindows reconEnvW :=
  ⟨(repositionSavedWindows_partial_failure_isolation reconEnvW rfl).2
      reconWinA (by decide) ⟨5, 5, 10, 10⟩ rfl,
    (repositionSavedWindows_partial_failure_isolation reconEnvW rfl).2
      reconWinB (by decide) ⟨6, 6, 10, 10⟩ rfl,
    (repositionSavedWindows_partial_failure_isolation reconEnvW rfl).2
      reconWinC (by decide) ⟨7, 7, 10, 10⟩ rfl⟩

/-- The source predicate isRectOnScreen is exactly non-disjointness of
closed rectangles: for nondegenerate rectangles, a window rectangle lies
entirely outside the virtual screen precisely when isRectOnScreen
reports false. -/
theorem rectEntirelyOutside_iff (r s : RECT)
    (hr1 : r.Left ≤ r.Right) (hr2 : r.Top ≤ r.Bottom)
    (hs1 : s.Left ≤ s.Right) (hs2 : s.Top ≤ s.Bottom) :
    rectEntirelyOutside r s ↔ isRectOnScreen r s = false := by
  unfold rectEntirelyOutside inRect isRectOnScreen
  constructor
  · intro hout
    by_cases hc : (r.Right < s.Left ∨ r.Left > s.Right ∨
        r.Bottom < s.Top ∨ r.Top > s.Bottom)
    · simp [hc]
    · exfalso
      push_neg at hc
      obtain ⟨h1, h2, h3, h4⟩ := hc
      exact hout (max r.Left s.Left) (max r.Top s.Top)
        ⟨le_max_left _ _, max_le hr1 h1, le_max_left _ _, max_le hr2 h3⟩
        ⟨le_max_right _ _, max_le h2 hs1, le_max_right _ _, max_le h4 hs2⟩
  · intro hscr px py hpr hps
    by_cases hc : (r.Right < s.Left ∨ r.Left > s.Right ∨
        r.Bottom < s.Top ∨ r.Top > s.Bottom)
    · obtain ⟨ha1, ha2, ha3, ha4⟩ := hpr
      obtain ⟨hb1, hb2, hb3, hb4⟩ := hps
      rcases hc with hc | hc | hc | hc <;> omega
    · simp [hc] at hscr

/-- C8: on a valid window whose rectangle could be read, if that
rectangle lies entirely outside the combined virtual screen then the
first OS mutation call focusWindow makes — before any foreground
attempt — is the SetWindowPos that centers the window on the primary
display while preserving its width and height, and everything after it
in the trace is a foreground attempt; if the rectangle is at least
partially inside the virtual screen, focusWindow issues no recenter
move at all. -/
theorem focusWindow_offscreen_recenter (env : FocusEnv) (r : RECT)
    (hv : env.validWindow = true) (hr : env.windowRect = some r)
    (hr1 : r.Left ≤ r.Right) (hr2 : r.Top ≤ r.Bottom)
    (hs1 : env.virtualScreen.Left ≤ env.virtualScreen.Right)
    (hs2 : env.virtualScreen.Top ≤ env.virtualScreen.Bottom) :
    (rectEntirelyOutside r env.virtualScreen →
      ∃ rest, (focusWindow env).2 =
        FocusEvent.recenter
          (env.primaryDisplay.Left +
            Int.tdiv (env.primaryDisplay.Right - env.primaryDisplay.Left -
              (r.Right - r.Left)) 2)
          (env.primaryDisplay.Top +
            Int.tdiv (env.primaryDisplay.Bottom - env.primaryDisplay.Top -
              (r.Bottom - r.Top)) 2)
          (r.Right - r.Left) (r.Bottom - r.Top) :: rest ∧
        ∀ e ∈ rest, ∃ i, e = FocusEvent.fgAttempt i) ∧
    (¬ rectEntirelyOutside r env.virtualScreen →
      ∀ x y w h, FocusEvent.recenter x y w h ∉ (focusWindow env).2) := by
  have hiff := rectEntirelyOutside_iff r env.virtualScreen hr1 hr2 hs1 hs2
  have h1 : ¬(true = false) := by decide
  constructor
  · intro hout
    have hscr : isRectOnScreen r env.virtualScreen = false := hiff.mp hout
    simp only [focusWindow, hv, hr, if_neg h1, hscr]
    by_cases h0 : env.fg 0 <;> by_cases hf1 : env.fg 1 <;>
      by_cases hf2 : env.fg 2 <;> by_cases hf3 : env.fg 3 <;>
      simp [h0, hf1, hf2, hf3]
  · intro hin
    have hscr : isRectOnScreen r env.virtualScreen = true := by
      rcases Bool.eq_false_or_eq_true (isRectOnScreen r env.virtualScreen)
        with hc | hc
      · exact hc
      · exact absurd (hiff.mpr hc) hin
    intro x y w h
    simp only [focusWindow, hv, hr, if_neg h1, hscr]
    by_cases h0 : env.fg 0 <;> by_cases hf1 : env.fg 1 <;>
      by_cases hf2 : env.fg 2 <;> by_cases hf3 : env.fg 3 <;>
      simp [h0, hf1, hf2, hf3]

/-- Witness for C8 at a concrete input: a 400 by 400 window at
(-500, -500, -100, -100), entirely left of and above a 1920 by 1080
virtual screen, is first recentered to (760, 340) on the primary
display with its size preserved, before the foreground attempts. -/
theorem focusWindow_offscreen_recenter_witness :
    ∃ rest,
      (focusWindow
        ⟨true, some ⟨-500, -500, -100, -100⟩, ⟨0, 0, 1920, 1080⟩,
          ⟨0, 0, 1920, 1080⟩, fun _ => true⟩).2 =
        FocusEvent.recenter 760 340 400 400 :: rest ∧
      ∀ e ∈ rest, ∃ i, e = FocusEvent.fgAttempt i :=
  (focusWindow_offscreen_recenter
      ⟨true, some ⟨-500, -500, -100, -100⟩, ⟨0, 0, 1920, 1080⟩,
        ⟨0, 0, 1920, 1080⟩, fun _ => true⟩
      ⟨-500, -500, -100, -100⟩ rfl rfl (by decide) (by decide) (by decide)
      (by decide)).1
    ((rectEntirelyOutside_iff ⟨-500, -500, -100, -100⟩ ⟨0, 0, 1920, 1080⟩
        (by decide) (by decide) (by decide) (by decide)).mpr (by decide))
